import Mathlib

/-!
Verification of the orchestration logic of `speech_to_text.py`
(repository GCPsoundtotxt).

The program is pure glue: it normalizes audio format via an external
transcoder, probes duration via an external prober, uploads long audio to
object storage, calls a cloud speech-recognition service, and writes the
transcript next to the source file.  We embed the orchestration shallowly:

* external collaborators (file existence, ffmpeg success, the probed
  duration, upload success, the recognition outcome) become fields of an
  environment record `Env`;
* the observable actions of one `transcribe_audio` call (temp-file
  creation, transcoding, client construction, upload, the two kinds of
  recognition calls, temp-file removal) become an `Event` trace;
* the Python value returned by `transcribe_audio` is `Except String
  (Option String)`: `Except.error` models an exception escaping the
  function, `Except.ok none` the `return None` failure signal, and
  `Except.ok (some t)` a transcript;
* durations (Python floats compared only against `60` and for
  truthiness) are modelled as `Option ℚ`.

Path manipulation (`os.path.splitext`, `os.path.basename`,
`os.path.join`) is embedded faithfully from CPython's `posixpath`.
-/

set_option autoImplicit false

/-- One ranked alternative of a recognition result (field
`alternative.transcript` in the response object). -/
structure SpeechAlternative where
  transcript : String
deriving DecidableEq, Repr

/-- One recognition result, carrying its ranked alternatives. -/
structure SpeechResult where
  alternatives : List SpeechAlternative
deriving DecidableEq, Repr

/-- A recognition response: an ordered sequence of results. -/
structure RecognizeResponse where
  results : List SpeechResult
deriving DecidableEq, Repr

/-- Index of the last occurrence of `c` in `cs`, if any
(CPython `str.rfind` restricted to a single character). -/
def lastIdxOf (cs : List Char) (c : Char) : Option Nat :=
  match cs with
  | [] => none
  | x :: xs =>
    match lastIdxOf xs c with
    | some i => some (i + 1)
    | none => if x = c then some 0 else none

/-- `os.path.splitext` for POSIX paths: split at the last dot that comes
after the last separator, unless the basename up to that dot is all dots
(so `.bashrc` has no extension). -/
def splitext (p : String) : String × String :=
  let cs := p.data
  let sep : Int := match lastIdxOf cs '/' with | none => -1 | some i => (i : Int)
  let dot : Int := match lastIdxOf cs '.' with | none => -1 | some i => (i : Int)
  if sep < dot then
    let start := (sep + 1).toNat
    let d := dot.toNat
    if (List.range (d - start)).all (fun k => cs.get? (start + k) == some '.') then
      (p, "")
    else
      (String.mk (cs.take d), String.mk (cs.drop d))
  else (p, "")

/-- Python `str.lower` (code points relevant here are ASCII): lowercase
every character. -/
def str_lower (s : String) : String := String.mk (s.data.map Char.toLower)

/-- `os.path.basename` for POSIX paths. -/
def basename (p : String) : String :=
  match lastIdxOf p.data '/' with
  | none => p
  | some i => String.mk (p.data.drop (i + 1))

/-- Python `str.startswith`, on the character lists. -/
def str_startsWith (s pre : String) : Bool := pre.data.isPrefixOf s.data

/-- Python `str.endswith`, on the character lists. -/
def str_endsWith (s suf : String) : Bool := suf.data.reverse.isPrefixOf s.data.reverse

/-- `os.path.join` for POSIX paths, two arguments. -/
def join_path (dir b : String) : String :=
  if str_startsWith b "/" then b
  else if dir = "" ∨ str_endsWith dir "/" then dir ++ b
  else dir ++ "/" ++ b

/-- Transcript extraction, exactly the nested loops of
`speech_to_text.py` lines 209-213 (and identically lines 111-115 of
`transcribe_audio_long`):

    transcription = ""
    for result in response.results:
        for alternative in result.alternatives:
            transcription += alternative.transcript
-/
def extractTranscription (response : RecognizeResponse) : String :=
  response.results.foldl
    (fun acc result =>
      result.alternatives.foldl (fun a alt => a ++ alt.transcript) acc) ""

/-- Concatenation of a list of strings with no separator. -/
def concatAll : List String → String
  | [] => ""
  | s :: ss => s ++ concatAll ss

/-- Spec-side description of what the code computes: the concatenation,
over results in response order, of the concatenation of ALL alternatives'
texts of each result. -/
def allAlternativesTranscript (response : RecognizeResponse) : String :=
  concatAll (response.results.map fun r => concatAll (r.alternatives.map fun a => a.transcript))

/-- Modelled from the spec's words (claimed behaviour): the concatenation
of only the TOP-ranked alternative's text of each result, in response
order, with no separator. -/
def topAlternativeTranscript (response : RecognizeResponse) : String :=
  concatAll (response.results.map fun r =>
    match r.alternatives with
    | [] => ""
    | a :: _ => a.transcript)

example : extractTranscription (RecognizeResponse.mk
    [SpeechResult.mk [SpeechAlternative.mk "hello "],
     SpeechResult.mk [SpeechAlternative.mk "world"]]) = "hello world" := by decide

example : splitext "dir/lecture.mp3" = ("dir/lecture", ".mp3") := by decide

example : splitext ".bashrc" = (".bashrc", "") := by decide

example : basename "a/b/c.wav" = "c.wav" := by decide

/-- Observable actions of one `transcribe_audio` call, in program order.
`tempCreated` is `tempfile.NamedTemporaryFile(...)` (line 146),
`ffmpegConvert` is the `ffmpeg` subprocess invocation (line 147),
`clientCreate` is `speech_v1.SpeechClient()` (line 160), `gcsUpload` is
`upload_to_gcs` (line 170), `longRecognizeUri`/`syncRecognizeInline` are
the two recognition calls (lines 188 and 196), and `removeTemp` is the
attempted `os.remove` (line 204). -/
inductive Event where
  | tempCreated (path : String)
  | ffmpegConvert
  | clientCreate
  | gcsUpload
  | longRecognizeUri (uri : String)
  | syncRecognizeInline
  | removeTemp (path : String)
deriving DecidableEq, Repr

/-- Environment: the outcomes of the external collaborators that one
`transcribe_audio` call consults, fixed up front.

* `fileExists` — `os.path.exists(audio_file_path)` (line 132);
* `ffmpegOk` — whether the `ffmpeg` subprocess succeeds (line 147; `false`
  covers both `FileNotFoundError` and `CalledProcessError`);
* `tempName` — the path `tempfile.NamedTemporaryFile` allocates (line 146);
* `clientRaises` — whether `speech_v1.SpeechClient()` raises (line 160);
* `duration` — the value `get_audio_duration` returns (line 163): a
  number, or `none` when the probe collapsed to unknown;
* `uploadOk` — whether the object-storage upload succeeds (inside
  `upload_to_gcs`, which catches its own exceptions and returns `None`);
* `recognizeOutcome` — the outcome of the recognition call performed
  inside the `try` block of lines 184-196 (either path): `Except.error`
  models any exception raised there (transport error, timeout, or the
  request-time file read failing), `Except.ok` a finished response;
* `removeRaises` — whether `os.remove` of the temp file raises
  (line 204; swallowed by the bare `except`). -/
structure Env where
  fileExists : Bool
  ffmpegOk : Bool
  tempName : String
  clientRaises : Bool
  duration : Option ℚ
  uploadOk : Bool
  recognizeOutcome : Except String RecognizeResponse
  removeRaises : Bool

deriving instance DecidableEq for Except

/-- The fixed bucket name of `upload_to_gcs` (line 51). -/
def default_bucket : String := "jamesbaker-audio-transcription-2026"

/-- `upload_to_gcs` (lines 51-75): on success return
`gs://<bucket>/<basename>`; any exception is caught inside and yields
`None`. -/
def upload_to_gcs (uploadOk : Bool) (file_path bucket_name : String) : Option String :=
  if uploadOk then some ("gs://" ++ bucket_name ++ "/" ++ basename file_path)
  else none

/-- Python truthiness of the `duration` value (`None` and `0.0` are
falsy). -/
def pyTruthyRat : Option ℚ → Bool
  | none => false
  | some d => decide (d ≠ 0)

/-- Python truthiness of the transcription value (`None` and `""` are
falsy), as used by `if transcription:` (lines 253 and 271). -/
def pyTruthyStr : Option String → Bool
  | none => false
  | some s => !s.isEmpty

/-- Line 164: `use_long_running = duration and duration > 60`.  The
Python value is truthy exactly when `duration` is a nonzero number
greater than 60. -/
def use_long_running (duration : Option ℚ) : Bool :=
  pyTruthyRat duration &&
    (match duration with
     | some d => decide (d > 60)
     | none => false)

/-- Lines 141-152: the path actually processed — the temp WAV file when
the (lowercased) extension is not `.wav`, the original path otherwise. -/
def audio_to_process (env : Env) (audio_file_path : String) : String :=
  if str_lower (splitext audio_file_path).2 ≠ ".wav" then env.tempName else audio_file_path

/-- The normalization events: for a non-`.wav` extension a temp file is
created and ffmpeg invoked; otherwise nothing happens. -/
def conv_events (env : Env) (audio_file_path : String) : List Event :=
  if str_lower (splitext audio_file_path).2 ≠ ".wav" then
    [Event.tempCreated env.tempName, Event.ffmpegConvert]
  else []

/-- Lines 201-206: the temp file is removed (errors swallowed) exactly
when the processed path differs from the input path. -/
def cleanup_events (a2p audio_file_path : String) : List Event :=
  if a2p ≠ audio_file_path then [Event.removeTemp a2p] else []

/-- Lines 159-214 of `transcribe_audio`: client construction (NOT inside
any `try`), duration-based dispatch, optional staging upload, the
recognition call inside `try/except`, temp-file cleanup (reached only
when the `try` body completed), and transcript extraction.  `removeRaises`
is deliberately never consulted: the bare `except: pass` of lines 205-206
makes the behaviour independent of whether `os.remove` raises. -/
def dispatch (env : Env) (a2p audio_file_path : String) (pre : List Event) :
    Except String (Option String) × List Event :=
  if env.clientRaises then (Except.error "SpeechClient", pre ++ [Event.clientCreate])
  else if use_long_running env.duration then
    match upload_to_gcs env.uploadOk a2p default_bucket with
    | none => (Except.ok none, pre ++ [Event.clientCreate, Event.gcsUpload])
    | some gcs_uri =>
      match env.recognizeOutcome with
      | Except.error _ =>
        (Except.ok none,
         pre ++ [Event.clientCreate, Event.gcsUpload, Event.longRecognizeUri gcs_uri])
      | Except.ok response =>
        (Except.ok (some (extractTranscription response)),
         pre ++ [Event.clientCreate, Event.gcsUpload, Event.longRecognizeUri gcs_uri]
             ++ cleanup_events a2p audio_file_path)
  else
    match env.recognizeOutcome with
    | Except.error _ =>
      (Except.ok none, pre ++ [Event.clientCreate, Event.syncRecognizeInline])
    | Except.ok response =>
      (Except.ok (some (extractTranscription response)),
       pre ++ [Event.clientCreate, Event.syncRecognizeInline]
           ++ cleanup_events a2p audio_file_path)

/-- `transcribe_audio` (lines 120-214): existence check, format
normalization (with early `return None` on transcoding failure, lines
154-157), then `dispatch`. -/
def transcribe_audio (env : Env) (audio_file_path : String) :
    Except String (Option String) × List Event :=
  if env.fileExists = false then (Except.ok none, [])
  else if str_lower (splitext audio_file_path).2 ≠ ".wav" ∧ env.ffmpegOk = false then
    (Except.ok none, [Event.tempCreated env.tempName, Event.ffmpegConvert])
  else dispatch env (audio_to_process env audio_file_path) audio_file_path
         (conv_events env audio_file_path)

example :
    transcribe_audio
      (Env.mk true true "/tmp/t.wav" false (some 45) true
        (Except.ok (RecognizeResponse.mk [SpeechResult.mk [SpeechAlternative.mk "hi"]])) false)
      "lecture.mp3"
    = (Except.ok (some "hi"),
       [Event.tempCreated "/tmp/t.wav", Event.ffmpegConvert, Event.clientCreate,
        Event.syncRecognizeInline, Event.removeTemp "/tmp/t.wav"]) := by decide

example :
    transcribe_audio
      (Env.mk true true "/tmp/t.wav" false (some 120) true
        (Except.ok (RecognizeResponse.mk [SpeechResult.mk [SpeechAlternative.mk "hi"]])) false)
      "interview.m4a"
    = (Except.ok (some "hi"),
       [Event.tempCreated "/tmp/t.wav", Event.ffmpegConvert, Event.clientCreate,
        Event.gcsUpload,
        Event.longRecognizeUri ("gs://" ++ default_bucket ++ "/t.wav"),
        Event.removeTemp "/tmp/t.wav"]) := by decide

/-- Observable actions of the batch loop (`transcribe_directory`, lines
246-263) and of the single-file `__main__` path (lines 268-279):
the per-file header print, the printed transcript, the transcript file
write, the `"Transcription failed."` notice, and the
`"No audio files found"` message. -/
inductive BatchEvent where
  | processingHeader (name : String)
  | printedTranscript (t : String)
  | wroteFile (path contents : String)
  | failureNotice
  | noAudioFiles
deriving DecidableEq, Repr

/-- Line 228: the supported audio extensions. -/
def supported_extensions : List String :=
  [".wav", ".mp3", ".mp4", ".m4a", ".flac", ".ogg", ".webm", ".caf"]

/-- Lines 231-237: the audio files of a directory, in listing order —
regular files whose lowercased extension is supported, joined with the
directory path. -/
def audio_files (isFile : String → Bool) (directory_path : String)
    (listing : List String) : List String :=
  listing.filterMap fun filename =>
    let file_path := join_path directory_path filename
    if isFile file_path && supported_extensions.contains (str_lower (splitext filename).2) then
      some file_path
    else none

/-- Line 258 and line 276: the transcript's output path — the source path
with its extension replaced by `.txt`. -/
def output_path (audio_file : String) : String := (splitext audio_file).1 ++ ".txt"

/-- Lines 253-263: handling of one file's transcription value in the
batch loop — print and persist a truthy transcript, otherwise print the
failure notice. -/
def persist_events (audio_file : String) (transcription : Option String) : List BatchEvent :=
  if pyTruthyStr transcription then
    match transcription with
    | some t => [BatchEvent.printedTranscript t, BatchEvent.wroteFile (output_path audio_file) t]
    | none => []
  else [BatchEvent.failureNotice]

/-- Lines 246-263: the batch loop over the matched files.  Each iteration
prints the header, calls `transcribe_audio`, and handles the value; an
exception escaping `transcribe_audio` (modelled as `Except.error`) halts
the loop, since the loop body has no handler of its own. -/
def process_files (envOf : String → Env) : List String → List BatchEvent × Option String
  | [] => ([], none)
  | audio_file :: rest =>
    match (transcribe_audio (envOf audio_file) audio_file).1 with
    | Except.error e => ([BatchEvent.processingHeader (basename audio_file)], some e)
    | Except.ok transcription =>
      let next := process_files envOf rest
      (BatchEvent.processingHeader (basename audio_file)
         :: persist_events audio_file transcription ++ next.1,
       next.2)

/-- `transcribe_directory` (lines 217-263). -/
def transcribe_directory (isFile : String → Bool) (envOf : String → Env)
    (directory_path : String) (listing : List String) : List BatchEvent × Option String :=
  let files := audio_files isFile directory_path listing
  if files.isEmpty then ([BatchEvent.noAudioFiles], none)
  else process_files envOf files

/-- The single-file `__main__` path (lines 268-279): transcribe the named
file; print and persist only a truthy transcript; on a falsy result do
nothing (no notice is printed there). -/
def main_single (env : Env) (audio_file : String) : List BatchEvent × Option String :=
  match (transcribe_audio env audio_file).1 with
  | Except.error e => ([], some e)
  | Except.ok transcription =>
    if pyTruthyStr transcription then
      match transcription with
      | some t => ([BatchEvent.printedTranscript t,
                    BatchEvent.wroteFile (output_path audio_file) t], none)
      | none => ([], none)
    else ([], none)

/-- A flat model of the output directory: an association list from path
to file contents, most recent write first. -/
def write_file (fs : List (String × String)) (path contents : String) :
    List (String × String) :=
  (path, contents) :: fs.filter (fun e => e.1 != path)

/-- Reading back a path from the directory model. -/
def read_file (fs : List (String × String)) (path : String) : Option String :=
  (fs.find? (fun e => e.1 == path)).map Prod.snd

theorem foldl_alternatives_eq (l : List SpeechAlternative) (acc : String) :
    l.foldl (fun a alt => a ++ alt.transcript) acc
      = acc ++ concatAll (l.map fun a => a.transcript) := by
  induction l generalizing acc with
  | nil => simp [concatAll, String.append_empty]
  | cons x xs ih => simp [concatAll, ih, String.append_assoc]

theorem foldl_results_eq (rs : List SpeechResult) (acc : String) :
    rs.foldl (fun acc r => r.alternatives.foldl (fun a alt => a ++ alt.transcript) acc) acc
      = acc ++ concatAll (rs.map fun r => concatAll (r.alternatives.map fun a => a.transcript)) := by
  induction rs generalizing acc with
  | nil => simp [concatAll, String.append_empty]
  | cons r rs ih =>
    simp only [List.foldl_cons, List.map_cons, concatAll]
    rw [foldl_alternatives_eq, ih, String.append_assoc]

/-- C1 (amended): the transcript the dispatcher returns is the
concatenation, over results in response order with no separator, of the
concatenation of ALL alternatives' texts of each result — not only the
top-ranked alternative's text. -/
theorem C1_transcript_concats_all_alternatives (response : RecognizeResponse) :
    extractTranscription response = allAlternativesTranscript response := by
  unfold extractTranscription allAlternativesTranscript
  rw [foldl_results_eq, String.empty_append]

/-- C1 counterexample: on a response whose single result carries two
ranked alternatives, the extraction loop concatenates both alternatives'
texts, so the transcript differs from the concatenation of only the
top-ranked alternative's text. -/
theorem C1_counterexample :
    extractTranscription (RecognizeResponse.mk
        [SpeechResult.mk [SpeechAlternative.mk "hello ", SpeechAlternative.mk "hullo "]])
      ≠ topAlternativeTranscript (RecognizeResponse.mk
        [SpeechResult.mk [SpeechAlternative.mk "hello ", SpeechAlternative.mk "hullo "]]) := by
  decide

/-- Recognition-service calls among the events. -/
def isServiceCall : Event → Bool
  | Event.syncRecognizeInline => true
  | Event.longRecognizeUri _ => true
  | _ => false

/-- Staging upload or recognition-service calls among the events. -/
def isStagerOrService : Event → Bool
  | Event.gcsUpload => true
  | Event.syncRecognizeInline => true
  | Event.longRecognizeUri _ => true
  | _ => false

theorem dispatch_trace_mem (env : Env) (a2p p : String) (pre : List Event) (e : Event)
    (h : e ∈ (dispatch env a2p p pre).2) :
    e ∈ pre ∨ e = Event.clientCreate ∨ e = Event.gcsUpload ∨
      e = Event.longRecognizeUri ("gs://" ++ default_bucket ++ "/" ++ basename a2p) ∨
      e = Event.syncRecognizeInline ∨ e = Event.removeTemp a2p := by
  unfold dispatch cleanup_events at h
  rcases hr : env.recognizeOutcome with err | resp <;> rw [hr] at h <;>
    by_cases hc : env.clientRaises <;>
    by_cases hl : use_long_running env.duration <;>
    by_cases hu : env.uploadOk <;>
    by_cases ha : a2p = p <;>
    simp [hc, hl, hu, ha, upload_to_gcs] at h ⊢ <;>
    tauto

/-- C6: for every input path whose extension is the canonical `.wav`
(compared case-insensitively), the format normalizer returns the original
path unchanged, creates no temporary file, and never invokes the
transcoder. -/
theorem C6_canonical_extension_bypasses_normalizer (env : Env) (p : String)
    (hext : str_lower (splitext p).2 = ".wav") :
    audio_to_process env p = p ∧
    (∀ s, Event.tempCreated s ∉ (transcribe_audio env p).2) ∧
    Event.ffmpegConvert ∉ (transcribe_audio env p).2 := by
  have ha : audio_to_process env p = p := by
    unfold audio_to_process
    simp [hext]
  have hconv : conv_events env p = [] := by
    unfold conv_events
    simp [hext]
  have key : ∀ e, e ∈ (transcribe_audio env p).2 →
      e = Event.clientCreate ∨ e = Event.gcsUpload ∨
      e = Event.longRecognizeUri ("gs://" ++ default_bucket ++ "/" ++ basename p) ∨
      e = Event.syncRecognizeInline ∨ e = Event.removeTemp p := by
    intro e hmem
    unfold transcribe_audio at hmem
    by_cases hf : env.fileExists = false
    · simp [hf] at hmem
    · rw [if_neg hf, if_neg (by simp [hext]), ha, hconv] at hmem
      rcases dispatch_trace_mem env p p [] e hmem with h | h
      · simp at h
      · exact h
  refine ⟨ha, fun s hmem => ?_, fun hmem => ?_⟩
  · rcases key _ hmem with h | h | h | h | h <;> simp at h
  · rcases key _ hmem with h | h | h | h | h <;> simp at h

/-- A sample environment where every collaborator succeeds and the
recognition response is empty. -/
def sampleEnv : Env :=
  Env.mk true true "/tmp/conv.wav" false none true (Except.ok (RecognizeResponse.mk [])) false

theorem C6_witness :
    str_lower (splitext "talk.WAV").2 = ".wav" ∧
    (audio_to_process sampleEnv "talk.WAV" = "talk.WAV" ∧
     (∀ s, Event.tempCreated s ∉ (transcribe_audio sampleEnv "talk.WAV").2) ∧
     Event.ffmpegConvert ∉ (transcribe_audio sampleEnv "talk.WAV").2) :=
  ⟨by decide, C6_canonical_extension_bypasses_normalizer sampleEnv "talk.WAV" (by decide)⟩

/-- C7: for every existing input with a non-canonical extension whose
transcoding fails (tool missing or nonzero exit), `transcribe_audio`
returns the failure signal immediately: no recognition client is
constructed and no service call or upload happens — the trace holds only
the temp-file creation and the failed transcoding attempt. -/
theorem C7_transcode_failure_stops_processing (env : Env) (p : String)
    (hex : env.fileExists = true)
    (hext : str_lower (splitext p).2 ≠ ".wav")
    (hff : env.ffmpegOk = false) :
    transcribe_audio env p
      = (Except.ok none, [Event.tempCreated env.tempName, Event.ffmpegConvert]) := by
  unfold transcribe_audio
  rw [if_neg (by simp [hex]), if_pos ⟨hext, hff⟩]

/-- An environment whose transcoding step fails; everything else would
succeed. -/
def ffmpegFailEnv : Env :=
  Env.mk true false "/tmp/conv.wav" false none true (Except.ok (RecognizeResponse.mk [])) false

theorem C7_witness :
    (ffmpegFailEnv.fileExists = true ∧
     str_lower (splitext "song.mp3").2 ≠ ".wav" ∧
     ffmpegFailEnv.ffmpegOk = false) ∧
    transcribe_audio ffmpegFailEnv "song.mp3"
      = (Except.ok none, [Event.tempCreated "/tmp/conv.wav", Event.ffmpegConvert]) :=
  ⟨⟨by decide, by decide, by decide⟩,
   C7_transcode_failure_stops_processing ffmpegFailEnv "song.mp3" (by decide) (by decide) (by decide)⟩

theorem transcribe_audio_eq_dispatch (env : Env) (p : String)
    (hex : env.fileExists = true)
    (hconv : str_lower (splitext p).2 = ".wav" ∨ env.ffmpegOk = true) :
    transcribe_audio env p
      = dispatch env (audio_to_process env p) p (conv_events env p) := by
  unfold transcribe_audio
  rw [if_neg (by simp [hex]), if_neg ?hne]
  case hne =>
    rintro ⟨h1, h2⟩
    rcases hconv with h | h
    · exact h1 h
    · rw [h] at h2; cases h2

theorem filter_conv_stager (env : Env) (p : String) :
    (conv_events env p).filter isStagerOrService = [] := by
  unfold conv_events; split_ifs <;> rfl

theorem filter_conv_service (env : Env) (p : String) :
    (conv_events env p).filter isServiceCall = [] := by
  unfold conv_events; split_ifs <;> rfl

theorem filter_cleanup_stager (a b : String) :
    (cleanup_events a b).filter isStagerOrService = [] := by
  unfold cleanup_events; split_ifs <;> rfl

theorem filter_cleanup_service (a b : String) :
    (cleanup_events a b).filter isServiceCall = [] := by
  unfold cleanup_events; split_ifs <;> rfl

theorem gcsUpload_not_mem_conv (env : Env) (p : String) :
    Event.gcsUpload ∉ conv_events env p := by
  unfold conv_events; split_ifs <;> simp

theorem gcsUpload_not_mem_cleanup (a b : String) :
    Event.gcsUpload ∉ cleanup_events a b := by
  unfold cleanup_events; split_ifs <;> simp

/-- C4: for every probed duration strictly greater than 60 seconds
(reaching the dispatch: the file exists, normalization succeeded, and the
client was constructed), the staging upload is the first stager-or-service
event of the trace; if staging fails the dispatcher returns the failure
signal having made no recognition-service call; if staging succeeds the
only recognition-service call is a long-running request against the
locator the stager returned — never inline bytes. -/
theorem C4_long_audio_staged_before_recognition (env : Env) (p : String) (d : ℚ)
    (hex : env.fileExists = true)
    (hconv : str_lower (splitext p).2 = ".wav" ∨ env.ffmpegOk = true)
    (hcl : env.clientRaises = false)
    (hd : env.duration = some d) (h60 : 60 < d) :
    ((transcribe_audio env p).2.filter isStagerOrService).head? = some Event.gcsUpload ∧
    (env.uploadOk = false →
      (transcribe_audio env p).1 = Except.ok none ∧
      (transcribe_audio env p).2.filter isServiceCall = []) ∧
    (env.uploadOk = true →
      (transcribe_audio env p).2.filter isServiceCall =
        [Event.longRecognizeUri
          ("gs://" ++ default_bucket ++ "/" ++ basename (audio_to_process env p))]) := by
  have h0 : d ≠ 0 := by
    intro h
    rw [h] at h60
    exact absurd h60 (by norm_num)
  have hlong : use_long_running env.duration = true := by
    rw [hd]
    unfold use_long_running pyTruthyRat
    show (decide (d ≠ 0) && decide (d > 60)) = true
    rw [decide_eq_true h0, decide_eq_true h60]
    rfl
  rw [transcribe_audio_eq_dispatch env p hex hconv]
  unfold dispatch
  rw [if_neg (by simp [hcl]), if_pos hlong]
  cases hu : env.uploadOk <;>
    simp only [upload_to_gcs, if_true, if_false, Bool.false_eq_true, ite_false, ite_true] <;>
    [skip; rcases hr : env.recognizeOutcome with err | resp] <;>
    refine ⟨?_, ?_, ?_⟩ <;>
    simp [List.filter_append, filter_conv_stager, filter_conv_service,
      filter_cleanup_stager, filter_cleanup_service, isStagerOrService, isServiceCall]

/-- An environment for a long recording (probed 120 s) whose staging
upload fails. -/
def longUploadFailEnv : Env :=
  Env.mk true true "/tmp/conv.wav" false (some 120) false (Except.error "transport") false

theorem C4_witness :
    (longUploadFailEnv.fileExists = true ∧
     (str_lower (splitext "talk.wav").2 = ".wav" ∨ longUploadFailEnv.ffmpegOk = true) ∧
     longUploadFailEnv.clientRaises = false ∧
     longUploadFailEnv.duration = some 120 ∧ (60 : ℚ) < 120) ∧
    (((transcribe_audio longUploadFailEnv "talk.wav").2.filter isStagerOrService).head?
        = some Event.gcsUpload ∧
     (longUploadFailEnv.uploadOk = false →
       (transcribe_audio longUploadFailEnv "talk.wav").1 = Except.ok none ∧
       (transcribe_audio longUploadFailEnv "talk.wav").2.filter isServiceCall = []) ∧
     (longUploadFailEnv.uploadOk = true →
       (transcribe_audio longUploadFailEnv "talk.wav").2.filter isServiceCall =
         [Event.longRecognizeUri
           ("gs://" ++ default_bucket ++ "/"
             ++ basename (audio_to_process longUploadFailEnv "talk.wav"))])) :=
  ⟨⟨by decide, Or.inl (by decide), by decide, by decide, by decide⟩,
   C4_long_audio_staged_before_recognition longUploadFailEnv "talk.wav" 120
     (by decide) (Or.inl (by decide)) (by decide) (by decide) (by decide)⟩

/-- C5: for every probed duration at most 60 seconds (60 included) and
for the unknown-duration signal (reaching the dispatch: the file exists,
normalization succeeded, and the client was constructed), the dispatcher
never calls the remote stager and its only recognition-service call is
the synchronous inline-bytes request. -/
theorem C5_short_or_unknown_uses_sync_path (env : Env) (p : String)
    (hex : env.fileExists = true)
    (hconv : str_lower (splitext p).2 = ".wav" ∨ env.ffmpegOk = true)
    (hcl : env.clientRaises = false)
    (hdur : env.duration = none ∨ ∃ d, env.duration = some d ∧ d ≤ 60) :
    Event.gcsUpload ∉ (transcribe_audio env p).2 ∧
    (transcribe_audio env p).2.filter isServiceCall = [Event.syncRecognizeInline] := by
  have hlong : use_long_running env.duration = false := by
    rcases hdur with h | ⟨d, hd, hle⟩
    · rw [h]; rfl
    · rw [hd]
      unfold use_long_running
      show (pyTruthyRat (some d) && decide (d > 60)) = false
      rw [decide_eq_false (not_lt.mpr hle), Bool.and_false]
  rw [transcribe_audio_eq_dispatch env p hex hconv]
  unfold dispatch
  rw [if_neg (by simp [hcl]), if_neg (by simp [hlong])]
  rcases hr : env.recognizeOutcome with err | resp <;>
    refine ⟨?_, ?_⟩ <;>
    simp [List.filter_append, filter_conv_service, filter_cleanup_service,
      gcsUpload_not_mem_conv, gcsUpload_not_mem_cleanup, isServiceCall]

theorem C5_witness :
    (sampleEnv.fileExists = true ∧
     (str_lower (splitext "talk.wav").2 = ".wav" ∨ sampleEnv.ffmpegOk = true) ∧
     sampleEnv.clientRaises = false ∧ sampleEnv.duration = none) ∧
    (Event.gcsUpload ∉ (transcribe_audio sampleEnv "talk.wav").2 ∧
     (transcribe_audio sampleEnv "talk.wav").2.filter isServiceCall
       = [Event.syncRecognizeInline]) :=
  ⟨⟨by decide, Or.inl (by decide), by decide, by decide⟩,
   C5_short_or_unknown_uses_sync_path sampleEnv "talk.wav"
     (by decide) (Or.inl (by decide)) (by decide) (Or.inl (by decide))⟩

/-- C2 (amended): when a temporary converted file was created
(non-canonical extension, successful transcoding) and the client was
constructed, the temporary file is removed exactly once if and only if
the recognition call resolves successfully; when the call resolves to the
failure signal (staging failure or a caught recognition exception) the
function returns without deleting the temporary file.  The outcome never
depends on whether the deletion itself raises (`os.remove` runs under a
bare `except: pass`). -/
theorem C2_cleanup_exactly_on_success (env : Env) (p : String)
    (hex : env.fileExists = true)
    (hext : str_lower (splitext p).2 ≠ ".wav")
    (hff : env.ffmpegOk = true)
    (hcl : env.clientRaises = false)
    (htmp : env.tempName ≠ p) :
    (((transcribe_audio env p).2.count (Event.removeTemp env.tempName) = 1) ↔
      (∃ t, (transcribe_audio env p).1 = Except.ok (some t))) ∧
    ((transcribe_audio env p).1 = Except.ok none →
      (transcribe_audio env p).2.count (Event.removeTemp env.tempName) = 0) ∧
    (∀ b, transcribe_audio
        (Env.mk env.fileExists env.ffmpegOk env.tempName env.clientRaises env.duration
          env.uploadOk env.recognizeOutcome b) p
      = transcribe_audio env p) := by
  obtain ⟨fe, ff, tn, cr, du, uo, ro, rr⟩ := env
  simp only at hex hff hcl htmp
  subst hex hff hcl
  have ha2p : audio_to_process
      (Env.mk true true tn false du uo ro rr) p = tn := by
    unfold audio_to_process
    simp only at hext ⊢
    rw [if_pos hext]
  refine ⟨?_, ?_, fun b => rfl⟩ <;>
    rw [transcribe_audio_eq_dispatch _ p rfl (Or.inr rfl), ha2p] <;>
    unfold dispatch <;>
    rw [if_neg (by simp)] <;>
    by_cases hl : use_long_running du <;>
    simp only [hl, if_true, if_false, ite_true, ite_false] <;>
    cases uo <;>
    rcases ro with err | resp <;>
    simp [upload_to_gcs, cleanup_events, conv_events, hext, htmp,
      List.count_append, List.count_cons, List.count_nil]

/-- An environment where the input needs conversion and the recognition
call raises. -/
def recognizeRaisesEnv : Env :=
  Env.mk true true "/tmp/conv.wav" false none true (Except.error "transport") false

/-- C2 counterexample: a run in which normalization created a temporary
converted file and the recognition call raised an exception — the
dispatcher returns the failure signal but the trace holds no deletion of
the temporary file, so it is NOT deleted "regardless of whether
transcription succeeded or failed". -/
theorem C2_counterexample :
    Event.tempCreated "/tmp/conv.wav" ∈ (transcribe_audio recognizeRaisesEnv "a.mp3").2 ∧
    (transcribe_audio recognizeRaisesEnv "a.mp3").1 = Except.ok none ∧
    (transcribe_audio recognizeRaisesEnv "a.mp3").2.count (Event.removeTemp "/tmp/conv.wav")
      = 0 := by
  decide

/-- An environment where the input needs conversion and everything
succeeds with a one-result response. -/
def convSuccessEnv : Env :=
  Env.mk true true "/tmp/conv.wav" false none true
    (Except.ok (RecognizeResponse.mk [SpeechResult.mk [SpeechAlternative.mk "hi"]])) false

theorem C2_witness :
    (convSuccessEnv.fileExists = true ∧
     str_lower (splitext "a.mp3").2 ≠ ".wav" ∧
     convSuccessEnv.ffmpegOk = true ∧
     convSuccessEnv.clientRaises = false ∧
     convSuccessEnv.tempName ≠ "a.mp3") ∧
    ((((transcribe_audio convSuccessEnv "a.mp3").2.count
          (Event.removeTemp convSuccessEnv.tempName) = 1) ↔
       (∃ t, (transcribe_audio convSuccessEnv "a.mp3").1 = Except.ok (some t))) ∧
     ((transcribe_audio convSuccessEnv "a.mp3").1 = Except.ok none →
       (transcribe_audio convSuccessEnv "a.mp3").2.count
         (Event.removeTemp convSuccessEnv.tempName) = 0) ∧
     (∀ b, transcribe_audio
         (Env.mk convSuccessEnv.fileExists convSuccessEnv.ffmpegOk convSuccessEnv.tempName
           convSuccessEnv.clientRaises convSuccessEnv.duration convSuccessEnv.uploadOk
           convSuccessEnv.recognizeOutcome b) "a.mp3"
       = transcribe_audio convSuccessEnv "a.mp3")) :=
  ⟨⟨by decide, by decide, by decide, by decide, by decide⟩,
   C2_cleanup_exactly_on_success convSuccessEnv "a.mp3"
     (by decide) (by decide) (by decide) (by decide) (by decide)⟩

/-- Whether a `transcribe_audio` outcome is a normal return (no
exception escaped). -/
def isOkResult : Except String (Option String) → Bool
  | Except.ok _ => true
  | Except.error _ => false

/-- C3 (amended): every exception raised by the recognition request
itself (either path, including the request-time file read, all inside the
`try` of lines 184-196) is caught and converted to the failure signal:
whenever client construction does not raise, `transcribe_audio` returns
normally.  Client construction (line 160), however, sits outside the
`try` block, so its exceptions propagate — see the counterexample. -/
theorem C3_recognition_exceptions_caught (env : Env) (p : String)
    (hcl : env.clientRaises = false) :
    isOkResult (transcribe_audio env p).1 = true := by
  unfold transcribe_audio
  by_cases hf : env.fileExists = false
  · simp [hf, isOkResult]
  · rw [if_neg hf]
    by_cases hc2 : str_lower (splitext p).2 ≠ ".wav" ∧ env.ffmpegOk = false
    · rw [if_pos hc2]; rfl
    · rw [if_neg hc2]
      unfold dispatch
      rw [if_neg (by simp [hcl])]
      by_cases hl : use_long_running env.duration
      · rw [if_pos hl]
        cases hu : env.uploadOk <;>
          simp only [upload_to_gcs, ite_true, ite_false, Bool.false_eq_true, if_true, if_false] <;>
          rcases hr : env.recognizeOutcome with e | r <;>
          simp [isOkResult]
      · rw [if_neg hl]
        rcases hr : env.recognizeOutcome with e | r <;> simp [isOkResult]

/-- An environment whose speech-client construction raises. -/
def clientRaisesEnv : Env :=
  Env.mk true true "/tmp/conv.wav" true none true (Except.ok (RecognizeResponse.mk [])) false

/-- C3 counterexample: when `speech_v1.SpeechClient()` raises, the
exception escapes `transcribe_audio` — client construction is not under
the `try` block, so not every exception of the transcription paths is
caught. -/
theorem C3_counterexample :
    (transcribe_audio clientRaisesEnv "a.wav").1 = Except.error "SpeechClient" := by
  decide

theorem C3_witness :
    sampleEnv.clientRaises = false ∧
    isOkResult (transcribe_audio sampleEnv "a.wav").1 = true :=
  ⟨by decide, C3_recognition_exceptions_caught sampleEnv "a.wav" (by decide)⟩

/-- C9: result persistence targets the sibling path obtained by replacing
the source's extension with `.txt`; a write overwrites whatever the
directory held at that path (reading back always yields the new
transcript); and persisting the same transcript twice is byte-identical
to persisting it once. -/
theorem C9_persistence_overwrites_idempotently
    (fs : List (String × String)) (source t : String) :
    output_path source = (splitext source).1 ++ ".txt" ∧
    read_file (write_file fs (output_path source) t) (output_path source) = some t ∧
    write_file (write_file fs (output_path source) t) (output_path source) t
      = write_file fs (output_path source) t := by
  refine ⟨rfl, ?_, ?_⟩
  · unfold read_file write_file
    simp [List.find?]
  · unfold write_file
    simp [List.filter_filter]

theorem string_isEmpty_false (t : String) (h : t ≠ "") : t.isEmpty = false := by
  cases he : t.isEmpty
  · rfl
  · exact absurd ((String.isEmpty_iff t).mp he) h

theorem persist_events_of_nonempty (f t : String) (hne : t ≠ "") :
    persist_events f (some t)
      = [BatchEvent.printedTranscript t, BatchEvent.wroteFile (output_path f) t] := by
  unfold persist_events pyTruthyStr
  show (if (!t.isEmpty) = true then _ else _) = _
  rw [string_isEmpty_false t hne]
  rfl

theorem process_files_no_halt (envOf : String → Env) (files : List String)
    (hok : ∀ f ∈ files, isOkResult (transcribe_audio (envOf f) f).1 = true) :
    (process_files envOf files).2 = none := by
  induction files with
  | nil => rfl
  | cons g rest ih =>
    have hg := hok g (List.mem_cons_self g rest)
    unfold process_files
    rcases hgr : (transcribe_audio (envOf g) g).1 with e | tr
    · rw [hgr] at hg; cases hg
    · simp only [hgr]
      exact ih fun f hf => hok f (List.mem_cons_of_mem g hf)

theorem process_files_writes (envOf : String → Env) (files : List String)
    (hok : ∀ f ∈ files, isOkResult (transcribe_audio (envOf f) f).1 = true)
    (f t : String) (hf : f ∈ files)
    (ht : (transcribe_audio (envOf f) f).1 = Except.ok (some t)) (hne : t ≠ "") :
    BatchEvent.wroteFile (output_path f) t ∈ (process_files envOf files).1 := by
  induction files with
  | nil => cases hf
  | cons g rest ih =>
    rcases List.mem_cons.mp hf with rfl | hmem
    · unfold process_files
      simp only [ht, persist_events_of_nonempty f t hne]
      simp
    · have hg := hok g (List.mem_cons_self g rest)
      unfold process_files
      rcases hgr : (transcribe_audio (envOf g) g).1 with e | tr
      · rw [hgr] at hg; cases hg
      · simp only [hgr]
        have := ih (fun x hx => hok x (List.mem_cons_of_mem g hx)) hmem
        simp [this]

/-- C8: in a batch run in which no per-file call lets an exception escape
(every `transcribe_audio` returns normally — in particular any per-file
failure such as failed transcoding just yields the failure signal), the
batch never halts early, and every file whose transcription succeeds with
a nonempty transcript gets its transcript file written, independently of
the other files' failures. -/
theorem C8_batch_isolation (isFile : String → Bool) (envOf : String → Env)
    (directory_path : String) (listing : List String)
    (hok : ∀ f ∈ audio_files isFile directory_path listing,
      isOkResult (transcribe_audio (envOf f) f).1 = true)
    (f t : String)
    (hf : f ∈ audio_files isFile directory_path listing)
    (ht : (transcribe_audio (envOf f) f).1 = Except.ok (some t))
    (hne : t ≠ "") :
    BatchEvent.wroteFile (output_path f) t
      ∈ (transcribe_directory isFile envOf directory_path listing).1 ∧
    (transcribe_directory isFile envOf directory_path listing).2 = none := by
  unfold transcribe_directory
  rw [if_neg ?hne2]
  case hne2 =>
    intro hempty
    rw [List.isEmpty_iff] at hempty
    rw [hempty] at hf
    cases hf
  exact ⟨process_files_writes envOf _ hok f t hf ht hne,
         process_files_no_halt envOf _ hok⟩

theorem C8_witness :
    (∀ f ∈ audio_files (fun _ => true) "d" ["a.mp3", "b.wav"],
       isOkResult (transcribe_audio
         ((fun n => if n == "d/a.mp3" then ffmpegFailEnv else convSuccessEnv) f) f).1 = true) ∧
    "d/b.wav" ∈ audio_files (fun _ => true) "d" ["a.mp3", "b.wav"] ∧
    (transcribe_audio
       ((fun n => if n == "d/a.mp3" then ffmpegFailEnv else convSuccessEnv) "d/b.wav")
       "d/b.wav").1 = Except.ok (some "hi") ∧
    "hi" ≠ "" ∧
    (BatchEvent.wroteFile (output_path "d/b.wav") "hi"
       ∈ (transcribe_directory (fun _ => true)
           (fun n => if n == "d/a.mp3" then ffmpegFailEnv else convSuccessEnv) "d"
           ["a.mp3", "b.wav"]).1 ∧
     (transcribe_directory (fun _ => true)
         (fun n => if n == "d/a.mp3" then ffmpegFailEnv else convSuccessEnv) "d"
         ["a.mp3", "b.wav"]).2 = none) :=
  ⟨by decide, by decide, by decide, by decide,
   C8_batch_isolation (fun _ => true)
     (fun n => if n == "d/a.mp3" then ffmpegFailEnv else convSuccessEnv)
     "d" ["a.mp3", "b.wav"] (by decide) "d/b.wav" "hi" (by decide) (by decide) (by decide)⟩

/-- C10: a transcription that completes without error but yields the
empty string is handled exactly like a failure: the batch loop prints the
failure notice and writes no transcript file, and the single-file CLI
path prints nothing and writes no transcript file. -/
theorem C10_empty_transcript_is_failure (env : Env) (p : String)
    (h : (transcribe_audio env p).1 = Except.ok (some "")) :
    persist_events p (some "") = [BatchEvent.failureNotice] ∧
    process_files (fun _ => env) [p]
      = ([BatchEvent.processingHeader (basename p), BatchEvent.failureNotice], none) ∧
    main_single env p = ([], none) := by
  have hpe : persist_events p (some "") = [BatchEvent.failureNotice] := by
    unfold persist_events pyTruthyStr
    rfl
  refine ⟨hpe, ?_, ?_⟩
  · unfold process_files
    simp only [h, hpe]
    rfl
  · unfold main_single
    simp only [h]
    rfl

theorem C10_witness :
    (transcribe_audio sampleEnv "a.wav").1 = Except.ok (some "") ∧
    (persist_events "a.wav" (some "") = [BatchEvent.failureNotice] ∧
     process_files (fun _ => sampleEnv) ["a.wav"]
       = ([BatchEvent.processingHeader (basename "a.wav"), BatchEvent.failureNotice], none) ∧
     main_single sampleEnv "a.wav" = ([], none)) :=
  ⟨by decide, C10_empty_transcript_is_failure sampleEnv "a.wav" (by decide)⟩
